import Mathlib

/-!
Shallow embedding of two UI components of the openchamber repository and
proofs about them:

* the soft-keyboard inset heuristic of
  `packages/ui/src/components/layout/MainLayout.tsx`
  (`updateVisualViewport`, `forceKeyboardClosed`, `handleFocusIn`,
  `handleFocusOut`);
* the branch/worktree picker dialog of
  `packages/ui/src/components/session/BranchPickerDialog.tsx`
  (`filterBranches`, `localBranches`, `gitRepoProjects`,
  `handleCreateWorktree`, and the per-project load states).

Pixel quantities are modelled as `Int` (the code rounds every reading to
whole pixels with `Math.round`); strings are lists of characters so that
`toLowerCase`/`includes`/`startsWith` are explicit executable functions.
-/

/-- State owned by the keyboard-inset effect in `MainLayout.tsx`:
`stickyKeyboardInset`, `ignoreOpenUntilZero` and `previousHeight`
(lines 97-99 of the source). -/
structure KeyboardState where
  stickyKeyboardInset : Int
  ignoreOpenUntilZero : Bool
  previousHeight : Int
deriving DecidableEq

/-- Values one run of `updateVisualViewport` reads from the DOM:
the rounded visual-viewport height, the rounded raw `offsetTop` (the code
clamps it with `max 0` at use), the rounded layout height, and whether the
active element is a text target (INPUT/TEXTAREA/SELECT or contentEditable). -/
structure ViewportReading where
  height : Int
  offsetTop : Int
  layoutHeight : Int
  isTextTarget : Bool
deriving DecidableEq

/-- Threshold below which a raw inset is treated as toolbar noise:
`isTextTarget ? 120 : 180` (line 127). -/
def openThreshold (isTextTarget : Bool) : Int :=
  if isTextTarget then 120 else 180

/-- Raw inset `Math.max(0, layoutHeight - (height + offsetTop))` (line 122). -/
def rawViewportInset (layoutHeight height offsetTop : Int) : Int :=
  max 0 (layoutHeight - (height + offsetTop))

/-- Measured inset: the raw inset when it reaches the threshold, else 0
(line 128: `rawInset >= openThreshold ? rawInset : 0`). -/
def measuredInset (layoutHeight height offsetTop : Int) (isTextTarget : Bool) : Int :=
  if openThreshold isTextTarget ≤ rawViewportInset layoutHeight height offsetTop then
    rawViewportInset layoutHeight height offsetTop
  else 0

/-- Measured inset of one viewport reading (the `offsetTop` clamp
`Math.max(0, Math.round(viewport.offsetTop))` of line 111 applied). -/
def readInset (r : ViewportReading) : Int :=
  measuredInset r.layoutHeight r.height (max 0 r.offsetTop) r.isTextTarget

/-- Embedding of `forceKeyboardClosed` (lines 101-105): reset the sticky
inset to 0 and set the ignore-reopen flag. -/
def forceKeyboardClosed (s : KeyboardState) : KeyboardState :=
  { s with stickyKeyboardInset := 0, ignoreOpenUntilZero := true }

/-- Embedding of `updateVisualViewport` (lines 107-176); only the state
transition is modelled, not the CSS-variable writes and scroll locking. -/
def updateVisualViewport (s : KeyboardState) (r : ViewportReading) : KeyboardState :=
  let m := readInset r
  let s1 :=
    if s.ignoreOpenUntilZero = true then
      { s with stickyKeyboardInset := 0,
               ignoreOpenUntilZero := if m = 0 then false else s.ignoreOpenUntilZero }
    else if s.stickyKeyboardInset = 0 then
      (if 0 < m ∧ r.isTextTarget = true then { s with stickyKeyboardInset := m } else s)
    else
      if m = 0 then { s with stickyKeyboardInset := 0 }
      else if r.isTextTarget = false ∧ s.previousHeight + 6 < r.height then
        forceKeyboardClosed s
      else if 0 < m ∧ r.isTextTarget = true then { s with stickyKeyboardInset := m }
      else if s.stickyKeyboardInset < m then { s with stickyKeyboardInset := m }
      else s
  { s1 with previousHeight := r.height }

/-- Embedding of `handleFocusIn` (lines 188-199): clear the ignore flag when
the focused element is a text target, then re-run the viewport update. -/
def handleFocusIn (s : KeyboardState) (targetIsText : Bool) (r : ViewportReading) :
    KeyboardState :=
  updateVisualViewport
    (if targetIsText = true then { s with ignoreOpenUntilZero := false } else s) r

/-- Embedding of `handleFocusOut` (lines 202-220): when the source of the
focus-out is a text target and the new target is not, force-close; when the
new target is also a text target, leave the state unchanged. -/
def handleFocusOut (s : KeyboardState) (targetIsText relatedIsText : Bool) :
    KeyboardState :=
  if targetIsText = true then
    (if relatedIsText = true then s else forceKeyboardClosed s)
  else s

/-- Events driving the keyboard-inset state machine: viewport updates
(resize/scroll/orientation), focus-in, focus-out. -/
inductive KEvent where
  | viewport (r : ViewportReading)
  | focusIn (targetIsText : Bool) (r : ViewportReading)
  | focusOut (targetIsText relatedIsText : Bool)
deriving DecidableEq

/-- One step of the keyboard-inset state machine. -/
def kstep (s : KeyboardState) : KEvent → KeyboardState
  | KEvent.viewport r => updateVisualViewport s r
  | KEvent.focusIn t r => handleFocusIn s t r
  | KEvent.focusOut t rel => handleFocusOut s t rel

/-- Initial state of the effect (lines 97-99: all three variables start 0/false). -/
def initialKeyboardState : KeyboardState :=
  { stickyKeyboardInset := 0, ignoreOpenUntilZero := false, previousHeight := 0 }

/-- Run of the state machine from the initial state over a list of events. -/
def runK (es : List KEvent) : KeyboardState :=
  es.foldl kstep initialKeyboardState

/-- Run of plain viewport updates from a given state. -/
def runUpdates (s : KeyboardState) (rs : List ViewportReading) : KeyboardState :=
  rs.foldl updateVisualViewport s

/-- Formalisation of the spec sentence for the measured inset: the maximum
of 0 and layout height minus (viewport height plus viewport offset) when
that quantity is at or above the threshold, and 0 otherwise, where the
threshold is 120 when a text input is focused and 180 otherwise. -/
def measuredInsetSpec (layoutHeight height offsetTop : Int) (isTextTarget : Bool) : Int :=
  let threshold : Int := if isTextTarget then 120 else 180
  let inset := max 0 (layoutHeight - (height + offsetTop))
  if threshold ≤ inset then inset else 0

/-- C4: for every viewport update, `measuredInset` equals
max(0, layout height − (viewport height + viewport offset)) when that
quantity is at or above the threshold, and 0 otherwise, with threshold
120 px when a text input is focused and 180 px otherwise. -/
theorem claim_C4 (layoutHeight height offsetTop : Int) (isTextTarget : Bool) :
    measuredInset layoutHeight height offsetTop isTextTarget =
      measuredInsetSpec layoutHeight height offsetTop isTextTarget ∧
    openThreshold true = 120 ∧ openThreshold false = 180 :=
  ⟨rfl, rfl, rfl⟩

/-- C1 as stated is false: with `stickyInset = 200`, previous height 600 and a
new height of 780 with no text input focused (layout height 800), the height
grew by more than 6 px, yet the update takes the `measuredInset = 0` branch
first (raw inset 20 is below the 180 px threshold), so `stickyInset` is set to
0 without `ignoreUntilZero` ever being set. -/
theorem claim_C1_counterexample :
    0 < (200 : Int) ∧ (600 : Int) + 6 < 780 ∧
    (updateVisualViewport ⟨200, false, 600⟩ ⟨780, 0, 800, false⟩).stickyKeyboardInset = 0 ∧
    (updateVisualViewport ⟨200, false, 600⟩ ⟨780, 0, 800, false⟩).ignoreOpenUntilZero = false := by
  refine ⟨by decide, by decide, ?_, ?_⟩ <;> decide

/-- C1 amended: whenever `stickyInset` is positive, no text input is focused,
the viewport height grew by more than 6 px since the previous update, and
`measuredInset` is nonzero, the update forces `stickyInset` to 0 and leaves
`ignoreUntilZero` set (when `measuredInset` is 0 the update instead resets
`stickyInset` to 0 without raising the flag); and while `ignoreUntilZero` is
set, every update holds `stickyInset` at 0 and clears the flag exactly when
`measuredInset` reads 0. -/
theorem claim_C1_amended :
    (∀ (s : KeyboardState) (r : ViewportReading),
      0 < s.stickyKeyboardInset → r.isTextTarget = false →
      s.previousHeight + 6 < r.height → readInset r ≠ 0 →
      (updateVisualViewport s r).stickyKeyboardInset = 0 ∧
      (updateVisualViewport s r).ignoreOpenUntilZero = true) ∧
    (∀ (s : KeyboardState) (r : ViewportReading), s.ignoreOpenUntilZero = true →
      (updateVisualViewport s r).stickyKeyboardInset = 0 ∧
      ((updateVisualViewport s r).ignoreOpenUntilZero = false ↔ readInset r = 0)) := by
  constructor
  · intro s r hpos htext hgrow hm
    have hsne : s.stickyKeyboardInset ≠ 0 := ne_of_gt hpos
    simp only [updateVisualViewport, forceKeyboardClosed]
    rcases hi : s.ignoreOpenUntilZero with _ | _
    · simp [hi, hsne, hm, htext, hgrow]
    · simp [hi, hm]
  · intro s r hi
    by_cases hm : readInset r = 0 <;> simp [updateVisualViewport, hi, hm]

/-- Witness for the amended C1 at concrete inputs: part one at state
(200, false, 600) with reading (700, 0, 900, no input), part two at state
(0, true, 0) with reading (600, 0, 800, input). -/
theorem claim_C1_witness :
    ((updateVisualViewport ⟨200, false, 600⟩ ⟨700, 0, 900, false⟩).stickyKeyboardInset = 0 ∧
     (updateVisualViewport ⟨200, false, 600⟩ ⟨700, 0, 900, false⟩).ignoreOpenUntilZero = true) ∧
    ((updateVisualViewport ⟨0, true, 0⟩ ⟨600, 0, 800, true⟩).stickyKeyboardInset = 0 ∧
     ((updateVisualViewport ⟨0, true, 0⟩ ⟨600, 0, 800, true⟩).ignoreOpenUntilZero = false ↔
       readInset ⟨600, 0, 800, true⟩ = 0)) :=
  ⟨claim_C1_amended.1 ⟨200, false, 600⟩ ⟨700, 0, 900, false⟩
      (by decide) (by decide) (by decide) (by decide),
   claim_C1_amended.2 ⟨0, true, 0⟩ ⟨600, 0, 800, true⟩ (by decide)⟩

/-- Helper: the measured inset of a reading is never negative (it is either a
`max 0 _` or the literal 0). -/
theorem readInset_nonneg (r : ViewportReading) : 0 ≤ readInset r := by
  unfold readInset measuredInset rawViewportInset
  split <;> simp

/-- Helper: a raw inset strictly below the applicable threshold is measured
as 0. -/
theorem readInset_eq_zero_of_below (r : ViewportReading)
    (h : rawViewportInset r.layoutHeight r.height (max 0 r.offsetTop) <
      openThreshold r.isTextTarget) :
    readInset r = 0 := by
  unfold readInset measuredInset
  rw [if_neg (not_le.mpr h)]

/-- Helper: after any viewport update, whenever the ignore flag is set the
sticky inset is 0 (the flag is only ever set together with a reset, and the
flag-clearing branch also resets the inset). -/
theorem update_ignore_imp_zero (s : KeyboardState) (r : ViewportReading)
    (h : (updateVisualViewport s r).ignoreOpenUntilZero = true) :
    (updateVisualViewport s r).stickyKeyboardInset = 0 := by
  simp only [updateVisualViewport, forceKeyboardClosed] at h ⊢
  split_ifs at h ⊢ <;> simp_all

/-- Helper: one step of the event machine preserves the invariant that a set
ignore flag comes with a zero sticky inset. -/
theorem kstep_ignore_imp_zero (s : KeyboardState) (e : KEvent)
    (h : s.ignoreOpenUntilZero = true → s.stickyKeyboardInset = 0)
    (h2 : (kstep s e).ignoreOpenUntilZero = true) :
    (kstep s e).stickyKeyboardInset = 0 := by
  cases e with
  | viewport r => exact update_ignore_imp_zero s r h2
  | focusIn t r => exact update_ignore_imp_zero _ r h2
  | focusOut t rel =>
      cases t <;> cases rel <;> simp_all [kstep, handleFocusOut, forceKeyboardClosed]

/-- Helper: the ignore-flag/zero-inset invariant holds along every run. -/
theorem run_ignore_imp_zero (s : KeyboardState) (es : List KEvent)
    (h : s.ignoreOpenUntilZero = true → s.stickyKeyboardInset = 0)
    (h2 : (es.foldl kstep s).ignoreOpenUntilZero = true) :
    (es.foldl kstep s).stickyKeyboardInset = 0 := by
  induction es generalizing s with
  | nil => exact h h2
  | cons e es ih => exact ih (kstep s e) (kstep_ignore_imp_zero s e h) h2

/-- Reasons the amended C2 allows for a decrease of a positive sticky inset:
a zero measured-inset reading, the closing-by-height force-close, a tracking
reassignment to a positive measured inset while a text input is focused, or
a focus-out from a text input to a non-input target. -/
def decreaseReason (s : KeyboardState) : KEvent → Prop
  | KEvent.viewport r =>
      readInset r = 0 ∨ (r.isTextTarget = false ∧ s.previousHeight + 6 < r.height) ∨
        (0 < readInset r ∧ r.isTextTarget = true)
  | KEvent.focusIn _ r =>
      readInset r = 0 ∨ (r.isTextTarget = false ∧ s.previousHeight + 6 < r.height) ∨
        (0 < readInset r ∧ r.isTextTarget = true)
  | KEvent.focusOut t rel => t = true ∧ rel = false

/-- Helper: a single viewport update can decrease a positive sticky inset
only for one of the reasons listed in `decreaseReason`. -/
theorem update_decrease_reason (s : KeyboardState) (r : ViewportReading)
    (hi : s.ignoreOpenUntilZero = false) (hp : 0 < s.stickyKeyboardInset)
    (hd : (updateVisualViewport s r).stickyKeyboardInset < s.stickyKeyboardInset) :
    readInset r = 0 ∨ (r.isTextTarget = false ∧ s.previousHeight + 6 < r.height) ∨
      (0 < readInset r ∧ r.isTextTarget = true) := by
  have hsne : s.stickyKeyboardInset ≠ 0 := ne_of_gt hp
  by_cases hm : readInset r = 0
  · exact Or.inl hm
  by_cases hc : r.isTextTarget = false ∧ s.previousHeight + 6 < r.height
  · exact Or.inr (Or.inl hc)
  by_cases ht : r.isTextTarget = true
  · exact Or.inr (Or.inr ⟨lt_of_le_of_ne (readInset_nonneg r) (Ne.symm hm), ht⟩)
  exfalso
  have hf : r.isTextTarget = false := by
    cases hb : r.isTextTarget
    · rfl
    · exact absurd hb ht
  have hng : ¬(s.previousHeight + 6 < r.height) := fun hh => hc ⟨hf, hh⟩
  simp [updateVisualViewport, forceKeyboardClosed, hi, hsne, hm, hf, hng] at hd
  split at hd
  · simp at hd
    omega
  · simp at hd

/-- C2 as stated is false: starting from the initial state, one update with
an input focused (height 500, layout 800) sets `stickyInset` to 300; the next
update, still with the input focused (height 600, layout 800, measured inset
200, no focus-out, and closing-by-height impossible while a text input is
focused), decreases `stickyInset` to 200 even though no force-close happened
and the measured inset is not 0. -/
theorem claim_C2_counterexample :
    (runK [KEvent.viewport ⟨500, 0, 800, true⟩]).stickyKeyboardInset = 300 ∧
    (runK [KEvent.viewport ⟨500, 0, 800, true⟩,
           KEvent.viewport ⟨600, 0, 800, true⟩]).stickyKeyboardInset = 200 ∧
    readInset ⟨600, 0, 800, true⟩ = 200 := by
  refine ⟨?_, ?_, ?_⟩ <;> decide

/-- C2 amended: along every run the ignore flag is only ever set while the
sticky inset is 0 (so a positive sticky inset implies a clear flag), and from
any state with a clear flag and positive sticky inset, a step can decrease
the sticky inset only on an explicit force-close (closing-by-height or
focus-out from a text input to a non-input), a measured inset of 0, or a
tracking reassignment to a positive measured inset while a text input is
focused. -/
theorem claim_C2_amended :
    (∀ es : List KEvent, (runK es).ignoreOpenUntilZero = true →
      (runK es).stickyKeyboardInset = 0) ∧
    (∀ (s : KeyboardState) (e : KEvent), s.ignoreOpenUntilZero = false →
      0 < s.stickyKeyboardInset →
      (kstep s e).stickyKeyboardInset < s.stickyKeyboardInset →
      decreaseReason s e) := by
  constructor
  · intro es h
    exact run_ignore_imp_zero initialKeyboardState es (fun _ => rfl) h
  · intro s e hi hp hd
    cases e with
    | viewport r => exact update_decrease_reason s r hi hp hd
    | focusIn t r =>
        cases t with
        | false => exact update_decrease_reason s r hi hp hd
        | true =>
            exact update_decrease_reason { s with ignoreOpenUntilZero := false } r rfl hp hd
    | focusOut t rel =>
        cases t with
        | false => simp [kstep, handleFocusOut] at hd
        | true =>
            cases rel with
            | false => exact ⟨rfl, rfl⟩
            | true => simp [kstep, handleFocusOut] at hd

/-- Witness for the amended C2: the run consisting of one closing focus-out
ends with the flag set and sticky inset 0, and the concrete decreasing update
of the counterexample indeed carries one of the allowed reasons. -/
theorem claim_C2_witness :
    (runK [KEvent.focusOut true false]).stickyKeyboardInset = 0 ∧
    decreaseReason ⟨300, false, 500⟩ (KEvent.viewport ⟨600, 0, 800, true⟩) :=
  ⟨claim_C2_amended.1 [KEvent.focusOut true false] (by decide),
   claim_C2_amended.2 ⟨300, false, 500⟩ (KEvent.viewport ⟨600, 0, 800, true⟩)
     (by decide) (by decide) (by decide)⟩

/-- Helper: an update whose measured inset is 0 keeps a zero sticky inset
at zero, whatever the ignore flag. -/
theorem sticky_zero_step (s : KeyboardState) (r : ViewportReading)
    (hs : s.stickyKeyboardInset = 0) (hm : readInset r = 0) :
    (updateVisualViewport s r).stickyKeyboardInset = 0 := by
  simp only [updateVisualViewport, hm]
  split_ifs <;> simp_all

/-- C3: from a state with `stickyInset = 0` and the ignore flag clear, one
viewport update sets `stickyInset` to `measuredInset` exactly when the
measured inset is positive and a text input is focused, and leaves it 0
otherwise; and from any state with `stickyInset = 0`, a whole run of updates
whose raw insets stay below the applicable thresholds keeps `stickyInset`
at 0. -/
theorem claim_C3 :
    (∀ (s : KeyboardState) (r : ViewportReading),
      s.stickyKeyboardInset = 0 → s.ignoreOpenUntilZero = false →
      (updateVisualViewport s r).stickyKeyboardInset =
        if 0 < readInset r ∧ r.isTextTarget = true then readInset r else 0) ∧
    (∀ (s : KeyboardState) (rs : List ViewportReading),
      s.stickyKeyboardInset = 0 →
      (∀ r ∈ rs, rawViewportInset r.layoutHeight r.height (max 0 r.offsetTop) <
        openThreshold r.isTextTarget) →
      (runUpdates s rs).stickyKeyboardInset = 0) := by
  constructor
  · intro s r hs hi
    simp only [updateVisualViewport, hi, hs]
    split_ifs <;> simp_all
  · intro s rs hs hb
    induction rs generalizing s with
    | nil => exact hs
    | cons r rs ih =>
        exact ih (updateVisualViewport s r)
          (sticky_zero_step s r hs
            (readInset_eq_zero_of_below r (hb r (List.mem_cons_self _ _))))
          (fun q hq => hb q (List.mem_cons_of_mem _ hq))

/-- Witness for C3 at concrete inputs: one opening update from the initial
state with an input focused (height 500, layout 800), and a run of one
update whose raw inset 100 stays below the 120 px threshold. -/
theorem claim_C3_witness :
    ((updateVisualViewport ⟨0, false, 0⟩ ⟨500, 0, 800, true⟩).stickyKeyboardInset =
      if 0 < readInset ⟨500, 0, 800, true⟩ ∧
          (ViewportReading.mk 500 0 800 true).isTextTarget = true
      then readInset ⟨500, 0, 800, true⟩ else 0) ∧
    (runUpdates ⟨0, false, 0⟩ [⟨700, 0, 800, true⟩]).stickyKeyboardInset = 0 :=
  ⟨claim_C3.1 ⟨0, false, 0⟩ ⟨500, 0, 800, true⟩ rfl rfl,
   claim_C3.2 ⟨0, false, 0⟩ [⟨700, 0, 800, true⟩] rfl (by decide)⟩

/-- C5: on a focus-out whose source is a text input, if the new focus target
is not a text input the state is force-closed (sticky inset 0, ignore flag
set, previous height untouched) without consulting any viewport reading, and
if the new target is also a text input the state is left unchanged. -/
theorem claim_C5 (s : KeyboardState) (relatedIsText : Bool) :
    (relatedIsText = false →
      handleFocusOut s true relatedIsText =
        { s with stickyKeyboardInset := 0, ignoreOpenUntilZero := true }) ∧
    (relatedIsText = true → handleFocusOut s true relatedIsText = s) := by
  constructor <;> intro h <;> subst h <;> rfl

/-- Witness for C5 at the concrete state (150, false, 640). -/
theorem claim_C5_witness :
    handleFocusOut ⟨150, false, 640⟩ true false = ⟨0, true, 640⟩ ∧
    handleFocusOut ⟨150, false, 640⟩ true true = ⟨150, false, 640⟩ :=
  ⟨(claim_C5 ⟨150, false, 640⟩ false).1 rfl, (claim_C5 ⟨150, false, 640⟩ true).2 rfl⟩

/-- Strings of the dialog are modelled as lists of characters so that
`toLowerCase`, `includes`, `startsWith` and `trim` are explicit functions. -/
abbrev Str := List Char

/-- Model of `String.prototype.toLowerCase` (character-wise lowering). -/
def toLowerStr (s : Str) : Str := s.map Char.toLower

/-- Model of `String.prototype.includes`: `containsSub sub s` holds when
`sub` occurs contiguously inside `s`. -/
def containsSub (sub : Str) : Str → Bool
  | [] => sub.isEmpty
  | c :: t => sub.isPrefixOf (c :: t) || containsSub sub t

/-- Model of `!query.trim()`: the query is empty or all whitespace. -/
def isWhitespaceOnly (q : Str) : Bool := q.all Char.isWhitespace

/-- Embedding of `filterBranches` (lines 126-130 of
`BranchPickerDialog.tsx`): identity on an empty/whitespace query, otherwise
keep the branches whose lowercased name contains the lowercased query. -/
def filterBranches (branches : List Str) (query : Str) : List Str :=
  if isWhitespaceOnly query = true then branches
  else branches.filter fun b => containsSub (toLowerStr query) (toLowerStr b)

/-- The literal prefix `remotes/` used to drop remote-tracking branches. -/
def remotesPrefix : Str := ['r', 'e', 'm', 'o', 't', 'e', 's', '/']

/-- Per-branch metadata of the external `GitBranch` listing as read by the
dialog (current flag, commit hash, ahead/behind counts). -/
structure BranchDetails where
  current : Bool
  commit : Str
  ahead : Option Nat
  behind : Option Nat
deriving DecidableEq

/-- External `GitBranch` result: the ordered name list `all` plus the
per-name metadata mapping `branches`. -/
structure GitBranch where
  all : List Str
  branches : List (Str × BranchDetails)
deriving DecidableEq

/-- External `GitWorktreeInfo` as read by the dialog: only the (possibly
missing) backing branch name is consulted (`w.branch`, line 166). -/
structure WorktreeInfo where
  branch : Option Str
deriving DecidableEq

/-- A project handed to the dialog (lines 24-29). -/
structure Project where
  id : Str
  path : Str
  normalizedPath : Str
  label : Option Str
deriving DecidableEq

/-- Per-project load state `ProjectBranchData` (lines 38-43). -/
structure ProjectBranchData where
  branches : Option GitBranch
  worktrees : List WorktreeInfo
  loading : Bool
  error : Option Str
deriving DecidableEq

/-- Set of branch names already backing a worktree:
`new Set(worktrees.map(w => w.branch).filter(Boolean))` (line 166); missing
and empty names are dropped by `filter(Boolean)`. -/
def worktreeBranchSet (worktrees : List WorktreeInfo) : List Str :=
  (worktrees.filterMap fun w => w.branch).filter fun b => !b.isEmpty

/-- Embedding of the `localBranches` computation (lines 169-172): filter by
the query, then drop `remotes/`-prefixed names, then drop names backing an
existing worktree. -/
def localBranches (allBranches : List Str) (query : Str) (wtBranches : List Str) :
    List Str :=
  ((filterBranches allBranches query).filter fun b => !(remotesPrefix.isPrefixOf b)).filter
    fun b => !(wtBranches.contains b)

/-- Formalisation of the C8 wording: exactly the branches whose lowercased
name contains the lowercased query as a substring, minus `remotes/`-prefixed
names, minus names backing an existing worktree, in the original order. -/
def specDisplayedBranches (allBranches : List Str) (query : Str)
    (wtBranches : List Str) : List Str :=
  allBranches.filter fun b =>
    containsSub (toLowerStr query) (toLowerStr b) && !(remotesPrefix.isPrefixOf b) &&
      !(wtBranches.contains b)

/-- Lookup in the `Map<string, ProjectBranchData>` component state. -/
def mapGet {α : Type} : List (Str × α) → Str → Option α
  | [], _ => none
  | (k, v) :: rest, key => if k = key then some v else mapGet rest key

/-- Model of `Map.set`: replace the value at an existing key in place, or
append a new binding. -/
def mapSet {α : Type} : List (Str × α) → Str → α → List (Str × α)
  | [], key, v => [(key, v)]
  | (k, v0) :: rest, key, v =>
      if k = key then (key, v) :: rest else (k, v0) :: mapSet rest key v

/-- The loading state published before the fetches resolve (line 70). -/
def loadingState : ProjectBranchData :=
  { branches := none, worktrees := [], loading := true, error := none }

/-- Fallback message of line 92 (`'Failed to load'`). -/
def failedToLoadMsg : Str :=
  ['F', 'a', 'i', 'l', 'e', 'd', ' ', 't', 'o', ' ', 'l', 'o', 'a', 'd']

/-- Message extraction of line 92: the thrown `Error`'s message when there is
one, otherwise the fallback string. -/
def errorMessage : Option Str → Str
  | some msg => msg
  | none => failedToLoadMsg

/-- Outcome of one project's joined `Promise.all` of `getGitBranches` and
`listGitWorktrees`: both results together, or the thrown value (its message
when it was an `Error`). -/
abbrev LoadOutcome := Except (Option Str) (GitBranch × List WorktreeInfo)

/-- The state published when the joined fetches settle (lines 80-96). -/
def loadFinalState : LoadOutcome → ProjectBranchData
  | Except.ok (b, w) => { branches := some b, worktrees := w, loading := false, error := none }
  | Except.error e =>
      { branches := none, worktrees := [], loading := false, error := some (errorMessage e) }

/-- Publishing the loading state for a project (lines 68-72). -/
def applyLoadStart (m : List (Str × ProjectBranchData)) (pid : Str) :
    List (Str × ProjectBranchData) :=
  mapSet m pid loadingState

/-- Publishing the settled state for a project (lines 80-96). -/
def applyLoadResult (m : List (Str × ProjectBranchData)) (pid : Str)
    (outcome : LoadOutcome) : List (Str × ProjectBranchData) :=
  mapSet m pid (loadFinalState outcome)

/-- The two states a project's effect publishes for one load: first the
loading state, then the settled state. -/
def publishedStates (outcome : LoadOutcome) : List ProjectBranchData :=
  [loadingState, loadFinalState outcome]

/-- JS truthiness of the nullable string field `error`: truthy exactly when
a message is present and nonempty (the empty string is falsy, so
`!data.error` holds for both a null error and an empty-string message). -/
def errTruthy : Option Str → Bool
  | some msg => !msg.isEmpty
  | none => false

/-- Embedding of `gitRepoProjects` (lines 132-135): keep the projects whose
data exists, whose `error` is falsy, and which are loading or have branches
(`data && !data.error && (data.loading || data.branches)`). -/
def gitRepoProjects (projects : List Project)
    (projectData : List (Str × ProjectBranchData)) : List Project :=
  projects.filter fun p =>
    match mapGet projectData p.id with
    | some d => !errTruthy d.error && (d.loading || d.branches.isSome)
    | none => false

/-- Body rendered for an expanded project row (lines 203-215): a loading
placeholder, the inline error text, the empty placeholder, or the branch
list. -/
inductive ProjectView where
  | loadingView
  | errorView (msg : Str)
  | noBranchesView
  | branchListView (branches : List Str)
deriving DecidableEq

/-- Rendering of one expanded project's body from its load state and the
search query (lines 162-217); the `data?.error ?` ternary of line 207 tests
JS truthiness, so an empty-string message falls through to the
no-branches/branch-list branches. -/
def projectView (data : Option ProjectBranchData) (query : Str) : ProjectView :=
  match data with
  | some d =>
      if d.loading then ProjectView.loadingView
      else if errTruthy d.error = true then ProjectView.errorView (d.error.getD [])
      else
        let allBranches := match d.branches with
          | some b => b.all
          | none => []
        let lb := localBranches allBranches query (worktreeBranchSet d.worktrees)
        if lb = [] then ProjectView.noBranchesView else ProjectView.branchListView lb
  | none => ProjectView.noBranchesView

/-- Key of the per-row in-flight indicator: `` `${project.id}:${branchName}` ``
(line 113). -/
def worktreeKey (pid branchName : Str) : Str := pid ++ [':'] ++ branchName

/-- The dialog component state touched by `handleCreateWorktree`: whether the
dialog is open, the in-flight row key, and the per-project load states. -/
structure PickerState where
  isOpen : Bool
  creatingWorktree : Option Str
  projectData : List (Str × ProjectBranchData)
deriving DecidableEq

/-- Trace of one `handleCreateWorktree` invocation: the state while the call
is in flight, the state after the `finally`, and the console log entries. -/
structure CreateRun where
  inFlight : PickerState
  final : PickerState
  log : List Str
deriving DecidableEq

/-- Embedding of `handleCreateWorktree` (lines 112-124): mark the row as
in flight; on success close the dialog; on failure log the error; in both
cases clear the in-flight indicator in the `finally` block. -/
def handleCreateWorktree (s : PickerState) (pid branchName : Str)
    (outcome : Except Str Unit) : CreateRun :=
  let key := worktreeKey pid branchName
  let inFlight := { s with creatingWorktree := some key }
  match outcome with
  | Except.ok _ =>
      { inFlight := inFlight,
        final := { inFlight with isOpen := false, creatingWorktree := none },
        log := [] }
  | Except.error e =>
      { inFlight := inFlight,
        final := { inFlight with creatingWorktree := none },
        log := [e] }

/-- Shape of a published loading state (C9): branches null, worktrees empty,
error null, loading set. -/
def isLoadingShape (d : ProjectBranchData) : Prop :=
  d.loading = true ∧ d.branches = none ∧ d.worktrees = [] ∧ d.error = none

/-- Shape of a published success state (C9): loading false, error null, a
branch result present. -/
def isSuccessShape (d : ProjectBranchData) : Prop :=
  d.loading = false ∧ d.error = none ∧ d.branches ≠ none

/-- Shape of a published error state (C9): loading false, branches null,
worktrees empty, error non-null. -/
def isErrorShape (d : ProjectBranchData) : Prop :=
  d.loading = false ∧ d.branches = none ∧ d.worktrees = [] ∧ d.error ≠ none

/-- Helper: looking up the key just set returns the new value. -/
theorem mapGet_mapSet_self {α : Type} (m : List (Str × α)) (key : Str) (v : α) :
    mapGet (mapSet m key v) key = some v := by
  induction m with
  | nil => simp [mapSet, mapGet]
  | cons kv rest ih =>
      obtain ⟨k, v0⟩ := kv
      by_cases hk : k = key <;> simp [mapSet, mapGet, hk, ih]

/-- Helper: setting one key leaves every other key's lookup unchanged. -/
theorem mapGet_mapSet_ne {α : Type} (m : List (Str × α)) (key q : Str) (v : α)
    (h : q ≠ key) : mapGet (mapSet m key v) q = mapGet m q := by
  induction m with
  | nil => simp [mapSet, mapGet, h.symm]
  | cons kv rest ih =>
      obtain ⟨k, v0⟩ := kv
      by_cases hk : k = key
      · subst hk
        simp [mapSet, mapGet, h.symm]
      · by_cases hq : k = q
        · subst hq
          simp [mapSet, mapGet, hk, h]
        · simp [mapSet, mapGet, hk, hq, ih]

/-- C6 as stated is false on the display side: after project `a`'s load fails
with message `e`, the error is captured in its state, but the project is
filtered out of `gitRepoProjects`, so nothing (in particular no inline error)
is rendered for it. -/
theorem claim_C6_counterexample :
    mapGet (applyLoadResult (applyLoadStart [] ['a']) ['a'] (Except.error (some ['e']))) ['a'] =
      some { branches := none, worktrees := [], loading := false, error := some ['e'] } ∧
    gitRepoProjects [{ id := ['a'], path := ['x'], normalizedPath := ['x'], label := none }]
      (applyLoadResult (applyLoadStart [] ['a']) ['a'] (Except.error (some ['e']))) = [] :=
  ⟨by decide, by decide⟩

/-- C6 amended: a failed load is captured as a human-readable message (the
thrown error's message or the fallback) in exactly that project's state, and
other projects' states are unaffected; however a project in the published
failed-load state is excluded from the rendered project list (its `error` is
truthy or, for an empty message, it is neither loading nor has branches), so
although the row body would render a nonempty error message inline, that
branch is unreachable there, and an empty-string message would fall through
to the no-branches placeholder anyway. -/
theorem claim_C6_amended :
    (∀ (m : List (Str × ProjectBranchData)) (pid : Str) (e : Option Str),
      mapGet (applyLoadResult m pid (Except.error e)) pid =
        some ⟨none, [], false, some (errorMessage e)⟩) ∧
    (∀ (m : List (Str × ProjectBranchData)) (pid : Str) (outcome : LoadOutcome) (q : Str),
      q ≠ pid → mapGet (applyLoadResult m pid outcome) q = mapGet m q) ∧
    (∀ (projects : List Project) (m : List (Str × ProjectBranchData)) (p : Project)
      (e : Option Str), mapGet m p.id = some (loadFinalState (Except.error e)) →
      p ∉ gitRepoProjects projects m) ∧
    (∀ (msg : Str) (q : Str), msg ≠ [] →
      projectView (some ⟨none, [], false, some msg⟩) q = ProjectView.errorView msg) ∧
    (∀ q : Str,
      projectView (some ⟨none, [], false, some []⟩) q = ProjectView.noBranchesView) := by
  refine ⟨?_, ?_, ?_, ?_, ?_⟩
  · intro m pid e
    exact mapGet_mapSet_self m pid _
  · intro m pid outcome q h
    exact mapGet_mapSet_ne m pid q _ h
  · intro projects m p e hget hmem
    simp only [gitRepoProjects] at hmem
    have hcond := (List.mem_filter.mp hmem).2
    simp [hget, loadFinalState] at hcond
  · intro msg q hne
    have hm : msg.isEmpty = false := by
      cases msg with
      | nil => exact absurd rfl hne
      | cons c t => rfl
    simp [projectView, errTruthy, hm]
  · intro q
    simp [projectView, errTruthy, localBranches, filterBranches, worktreeBranchSet]

/-- Witness for the amended C6 at concrete inputs (one-project maps, the
fallback message case, the unreachable inline error body for a nonempty
message, and the empty-message fall-through). -/
theorem claim_C6_witness :
    mapGet (applyLoadResult [] ['a'] (Except.error none)) ['a'] =
      some ⟨none, [], false, some failedToLoadMsg⟩ ∧
    mapGet (applyLoadResult [(['b'], loadingState)] ['a'] (Except.error none)) ['b'] =
      mapGet [(['b'], loadingState)] ['b'] ∧
    ({ id := ['a'], path := ['x'], normalizedPath := ['x'], label := none } : Project) ∉
      gitRepoProjects [{ id := ['a'], path := ['x'], normalizedPath := ['x'], label := none }]
        [(['a'], loadFinalState (Except.error none))] ∧
    projectView (some ⟨none, [], false, some ['e']⟩) [] = ProjectView.errorView ['e'] ∧
    projectView (some ⟨none, [], false, some []⟩) ['z'] = ProjectView.noBranchesView :=
  ⟨claim_C6_amended.1 [] ['a'] none,
   claim_C6_amended.2.1 [(['b'], loadingState)] ['a'] (Except.error none) ['b'] (by decide),
   claim_C6_amended.2.2.1 _ [(['a'], loadFinalState (Except.error none))] _ none rfl,
   claim_C6_amended.2.2.2.1 ['e'] [] (by decide),
   claim_C6_amended.2.2.2.2 ['z']⟩

/-- C7: one invocation of the worktree-creation handler marks exactly the
row keyed by project id and branch name as in flight, never touches the
per-project load states, clears the in-flight indicator afterwards, closes
the dialog with no log on success, and on failure logs the error while
leaving the dialog-open flag unchanged. -/
theorem claim_C7 (s : PickerState) (pid branchName : Str) (outcome : Except Str Unit) :
    (handleCreateWorktree s pid branchName outcome).inFlight.creatingWorktree =
      some (worktreeKey pid branchName) ∧
    (handleCreateWorktree s pid branchName outcome).final.creatingWorktree = none ∧
    (handleCreateWorktree s pid branchName outcome).final.projectData = s.projectData ∧
    (∀ u, outcome = Except.ok u →
      (handleCreateWorktree s pid branchName outcome).final.isOpen = false ∧
      (handleCreateWorktree s pid branchName outcome).log = []) ∧
    (∀ e, outcome = Except.error e →
      (handleCreateWorktree s pid branchName outcome).final.isOpen = s.isOpen ∧
      (handleCreateWorktree s pid branchName outcome).log = [e]) := by
  cases outcome <;> simp [handleCreateWorktree]

/-- Witness for C7 at a concrete open dialog, one success and one failure. -/
theorem claim_C7_witness :
    (handleCreateWorktree ⟨true, none, []⟩ ['p'] ['b'] (Except.ok ())).final.isOpen = false ∧
    (handleCreateWorktree ⟨true, none, []⟩ ['p'] ['b'] (Except.error ['e'])).final.isOpen = true ∧
    (handleCreateWorktree ⟨true, none, []⟩ ['p'] ['b'] (Except.error ['e'])).log = [['e']] ∧
    (handleCreateWorktree ⟨true, none, []⟩ ['p'] ['b'] (Except.error ['e'])).final.creatingWorktree
      = none :=
  ⟨((claim_C7 ⟨true, none, []⟩ ['p'] ['b'] (Except.ok ())).2.2.2.1 () rfl).1,
   ((claim_C7 ⟨true, none, []⟩ ['p'] ['b'] (Except.error ['e'])).2.2.2.2 ['e'] rfl).1,
   ((claim_C7 ⟨true, none, []⟩ ['p'] ['b'] (Except.error ['e'])).2.2.2.2 ['e'] rfl).2,
   (claim_C7 ⟨true, none, []⟩ ['p'] ['b'] (Except.error ['e'])).2.1⟩

/-- Helper: two chained filters fuse into one filter over the conjunction. -/
theorem filter_filter_fuse {α : Type} (p q : α → Bool) (l : List α) :
    (l.filter p).filter q = l.filter fun a => p a && q a := by
  induction l with
  | nil => rfl
  | cons a t ih =>
      cases hp : p a <;> cases hq : q a <;> simp [List.filter_cons, hp, hq, ih]

/-- C8 as stated is false for whitespace queries: with branch list `[main]`,
query `" "` and no worktrees, the displayed list is `[main]` (the code treats
a whitespace-only query as no filter), yet `"main"` does not contain `" "`,
so the claimed substring characterisation yields the empty list. -/
theorem claim_C8_counterexample :
    localBranches [['m', 'a', 'i', 'n']] [' '] [] = [['m', 'a', 'i', 'n']] ∧
    specDisplayedBranches [['m', 'a', 'i', 'n']] [' '] [] = [] :=
  ⟨by decide, by decide⟩

/-- C8 amended: whenever the query is not empty/whitespace-only, the
displayed branch list is exactly the branches whose lowercased name contains
the lowercased query, minus `remotes/`-prefixed names and names backing an
existing worktree, in the original order; for an empty or whitespace-only
query the substring condition is skipped and the whole list minus those two
exclusions is displayed. -/
theorem claim_C8_amended (allBranches : List Str) (query : Str) (wtBranches : List Str) :
    (isWhitespaceOnly query = false →
      localBranches allBranches query wtBranches =
        specDisplayedBranches allBranches query wtBranches) ∧
    (isWhitespaceOnly query = true →
      localBranches allBranches query wtBranches =
        allBranches.filter fun b =>
          !(remotesPrefix.isPrefixOf b) && !(wtBranches.contains b)) := by
  constructor
  · intro h
    simp only [localBranches, filterBranches, specDisplayedBranches, h,
      Bool.false_eq_true, if_false]
    rw [filter_filter_fuse, filter_filter_fuse]
    simp [Bool.and_assoc]
  · intro h
    simp only [localBranches, filterBranches, h, if_true]
    rw [filter_filter_fuse]

/-- Witness for the amended C8 at a concrete branch list, one non-whitespace
query and one empty query. -/
theorem claim_C8_witness :
    localBranches [['m', 'a', 'i', 'n']] ['a'] [] =
      specDisplayedBranches [['m', 'a', 'i', 'n']] ['a'] [] ∧
    localBranches [['m', 'a', 'i', 'n']] [] [] =
      [['m', 'a', 'i', 'n']].filter (fun b =>
        !(remotesPrefix.isPrefixOf b) && !(([] : List Str).contains b)) :=
  ⟨(claim_C8_amended [['m', 'a', 'i', 'n']] ['a'] []).1 (by decide),
   (claim_C8_amended [['m', 'a', 'i', 'n']] [] []).2 (by decide)⟩

/-- C9: every state a project's load publishes is in exactly one of the
three shapes (loading, success, error), and whenever a published state
carries a branch result the state's worktree list is the one joined with it
in the same successful outcome. -/
theorem claim_C9 (outcome : LoadOutcome) (d : ProjectBranchData)
    (hd : d ∈ publishedStates outcome) :
    ((isLoadingShape d ∧ ¬isSuccessShape d ∧ ¬isErrorShape d) ∨
     (isSuccessShape d ∧ ¬isLoadingShape d ∧ ¬isErrorShape d) ∨
     (isErrorShape d ∧ ¬isLoadingShape d ∧ ¬isSuccessShape d)) ∧
    (∀ b, d.branches = some b → outcome = Except.ok (b, d.worktrees)) := by
  simp only [publishedStates, List.mem_cons, List.not_mem_nil, or_false] at hd
  rcases hd with h | h
  · subst h
    refine ⟨Or.inl ?_, ?_⟩
    · simp [isLoadingShape, isSuccessShape, isErrorShape, loadingState]
    · intro b hb
      simp [loadingState] at hb
  · subst h
    cases outcome with
    | ok bw =>
        obtain ⟨b0, w0⟩ := bw
        refine ⟨Or.inr (Or.inl ?_), ?_⟩
        · simp [isLoadingShape, isSuccessShape, isErrorShape, loadFinalState]
        · intro b hb
          have hb0 : b0 = b := by simpa [loadFinalState] using hb
          subst hb0
          rfl
    | error e =>
        refine ⟨Or.inr (Or.inr ?_), ?_⟩
        · simp [isLoadingShape, isSuccessShape, isErrorShape, loadFinalState]
        · intro b hb
          simp [loadFinalState] at hb

/-- Witness for C9: the loading state published for a failing load is in one
of the three shapes. -/
theorem claim_C9_witness :
    isLoadingShape loadingState ∨ isSuccessShape loadingState ∨ isErrorShape loadingState :=
  ((claim_C9 (Except.error none) loadingState (by decide)).1).elim
    (fun h => Or.inl h.1)
    (fun h => h.elim (fun h => Or.inr (Or.inl h.1)) (fun h => Or.inr (Or.inr h.1)))

/-- C10: the branch filter is the identity on an empty or whitespace-only
query, and for every query its result is an order-preserving sublist of the
input. -/
theorem claim_C10 (branches : List Str) (query : Str) :
    (isWhitespaceOnly query = true → filterBranches branches query = branches) ∧
    List.Sublist (filterBranches branches query) branches := by
  constructor
  · intro h
    simp [filterBranches, h]
  · unfold filterBranches
    split
    · exact List.Sublist.refl _
    · exact List.filter_sublist _

/-- Witness for C10 at the branch list `[dev]` with a whitespace query and a
non-matching query. -/
theorem claim_C10_witness :
    filterBranches [['d', 'e', 'v']] [' '] = [['d', 'e', 'v']] ∧
    List.Sublist (filterBranches [['d', 'e', 'v']] ['x']) [['d', 'e', 'v']] :=
  ⟨(claim_C10 [['d', 'e', 'v']] [' ']).1 (by decide),
   (claim_C10 [['d', 'e', 'v']] ['x']).2⟩
